import Mathlib

/-!
# Verification of the Gmail_TUI OAuth flows

A shallow embedding of the authentication components of the Gmail_TUI
repository (Go), together with theorems settling the frozen claims about
its specification.

The embedding covers:
* the device-authorization poller `pollDeviceToken` and the surrounding
  Bubble Tea update loop (the `main` package variant);
* the loopback login flow `LoopbackLogin` in `internal/auth/loopback.go`,
  including the buffered result channels and the callback handler;
* the token store `internal/store/token_store.go` (Save/Load round trip),
  with `encoding/json` modelled at the JSON-object level;
* the base64url decoding helper `decodeB64URL` of the Gmail client.

Go strings holding raw bytes are modelled as `List Nat` (each element a
byte value `< 256`); textual strings are Lean `String`s or `List Char`
where character-level structure matters. Machine integers do not overflow
anywhere in the modelled code (timestamps and intervals are small), so
they are embedded as `Nat`.
-/

namespace GmailTUI

/-! ## Data model: oauth2.Token

`golang.org/x/oauth2.Token` as the repository uses it: the access token,
the token type, the refresh token (the Go zero value `""` denotes an
absent refresh token) and the absolute expiry instant (seconds; `0` is
the Go zero `time.Time`, meaning "no expiry"). -/

structure OToken where
  accessToken : String
  tokenType : String
  refreshToken : String
  expiry : Nat
deriving Repr, DecidableEq

/-! ## Device-authorization poller (`pollDeviceToken`, unnamed part_003:145-202)

One iteration of the loop performs: a wall-clock deadline check, one POST
to the token endpoint, and a classification of the response. The HTTP
response is embedded already split by status code, with the two JSON
parses (`json.Unmarshal(b, &tok)` and `json.Unmarshal(b, &te)`) modelled
as `Option` values: `none` means the unmarshal failed (for the `tokenErr`
parse, Go ignores the failure and keeps the zero value, i.e. an empty
error code, modelled by `(te.map TokenErr.errCode).getD ""`, inlined at
each use of the source's `te.Error`). -/

/-- The `tokenErr` struct of the source: `{error, error_description}`. -/
structure TokenErr where
  errCode : String
  errDescription : String
deriving Repr, DecidableEq

/-- One token-endpoint response as the poller observes it. -/
inductive DevResp where
  /-- `resp.StatusCode == 200`; the field is the result of unmarshalling
      the body into an `oauth2.Token` (`none` = unmarshal error). -/
  | http200 (tok : Option OToken)
  /-- a non-200 status; `te` is the result of unmarshalling the body into
      `tokenErr` (`none` = unmarshal error, leaving the zero value). -/
  | httpErr (status : String) (body : String) (te : Option TokenErr)
  /-- `http.DefaultClient.Do` returned an error. -/
  | transportFailure (msg : String)
deriving Repr, DecidableEq

/-- The ways `pollDeviceToken` can return, one constructor per `return`
    statement of the source. -/
inductive PollResult where
  /-- success: a parsed token with a non-empty access token. -/
  | token (t : OToken)
  /-- `"device login expired, try again"`. -/
  | expired
  /-- the transport error from `http.DefaultClient.Do`. -/
  | transportErr (msg : String)
  /-- `json.Unmarshal` of a 200 body failed. -/
  | badJSON
  /-- `"token response missing access_token"`. -/
  | missingAccessToken
  /-- `"access denied in browser"`. -/
  | accessDenied
  /-- `"token error: %s (%s)"` for any other non-empty error code. -/
  | tokenError (code : String) (desc : String)
  /-- `"token request failed: %s %s"` when no error code parsed. -/
  | requestFailed (status : String) (body : String)
deriving Repr, DecidableEq

/-- Instrumented result of a `pollDeviceToken` run: the returned value,
    the number of token-endpoint requests performed, the final polling
    interval, the elapsed wall-clock time (seconds since the call) at the
    moment of return, and the number of times the `slow_down` branch
    incremented the interval. -/
structure PollOutcome where
  result : PollResult
  requests : Nat
  interval : Nat
  time : Nat
  bumps : Nat
deriving Repr, DecidableEq

/-- The loop of `pollDeviceToken`. `responses n` is the response the
    token endpoint gives to the `n`-th request (0-based); `reqs` counts
    requests already made, `now` is elapsed seconds, `deadline` is the
    elapsed-seconds deadline (`time.Now().Add(expiresIn)` of the source,
    with the call instant as origin). `fuel` bounds the number of loop
    iterations so the function is total; `none` means the fuel ran out
    before the loop returned. The deadline test `time.Now().After(deadline)`
    is the strict comparison `deadline < now`. -/
def pollLoop (responses : Nat → DevResp) :
    Nat → Nat → Nat → Nat → Nat → Nat → Option PollOutcome
  | 0, _, _, _, _, _ => none
  | fuel + 1, reqs, now, interval, deadline, bumps =>
    if deadline < now then
      some ⟨PollResult.expired, reqs, interval, now, bumps⟩
    else
      match responses reqs with
      | DevResp.transportFailure m =>
          some ⟨PollResult.transportErr m, reqs + 1, interval, now, bumps⟩
      | DevResp.http200 none =>
          some ⟨PollResult.badJSON, reqs + 1, interval, now, bumps⟩
      | DevResp.http200 (some tok) =>
          if tok.accessToken = "" then
            some ⟨PollResult.missingAccessToken, reqs + 1, interval, now, bumps⟩
          else
            some ⟨PollResult.token tok, reqs + 1, interval, now, bumps⟩
      | DevResp.httpErr status body te =>
          if (te.map TokenErr.errCode).getD "" = "authorization_pending" then
            pollLoop responses fuel (reqs + 1) (now + interval) interval deadline bumps
          else if (te.map TokenErr.errCode).getD "" = "slow_down" then
            pollLoop responses fuel (reqs + 1) (now + (interval + 2)) (interval + 2)
              deadline (bumps + 1)
          else if (te.map TokenErr.errCode).getD "" = "access_denied" then
            some ⟨PollResult.accessDenied, reqs + 1, interval, now, bumps⟩
          else if (te.map TokenErr.errCode).getD "" ≠ "" then
            some ⟨PollResult.tokenError ((te.map TokenErr.errCode).getD "")
                    ((te.map TokenErr.errDescription).getD ""),
                  reqs + 1, interval, now, bumps⟩
          else
            some ⟨PollResult.requestFailed status body, reqs + 1, interval, now, bumps⟩

/-- `pollDeviceToken(ctx, tokenURI, clientID, clientSecret, deviceCode,
    intervalSec, expiresInSec)`: the deadline is `expiresInSec` seconds
    from the call, elapsed time starts at 0, no request yet made. -/
def pollDeviceToken (responses : Nat → DevResp) (intervalSec expiresInSec fuel : Nat) :
    Option PollOutcome :=
  pollLoop responses fuel 0 0 intervalSec expiresInSec 0

/-- An `authorization_pending` error response (HTTP 428 at Google; the
    status string is irrelevant to the poller's branch). -/
def pendingResp : DevResp :=
  DevResp.httpErr "428 Precondition Required" "" (some ⟨"authorization_pending", ""⟩)

/-- A token endpoint that answers every poll with `authorization_pending`. -/
def pendingResponses : Nat → DevResp := fun _ => pendingResp

/-- The response schedule of the four-request scenario:
    `[authorization_pending, authorization_pending, slow_down, success]`. -/
def fourStepResponses (tok : OToken) : Nat → DevResp
  | 0 => pendingResp
  | 1 => pendingResp
  | 2 => DevResp.httpErr "428 Precondition Required" "" (some ⟨"slow_down", ""⟩)
  | _ => DevResp.http200 (some tok)

/-! ## Loopback login flow (`internal/auth/loopback.go`)

The `/callback` handler (lines 66-87) classifies one HTTP callback
request from its three query parameters; `url.Values.Get` yields `""`
for an absent parameter, so each parameter is a plain `String`.
`strings.TrimSpace` is modelled by `trimSpace` below (the Go function
restricted to ASCII white space, which covers the strings involved). -/

/-- The ASCII white-space predicate of Go's `unicode.IsSpace` (the
    strings involved are ASCII): space, tab, newline, vertical tab,
    form feed, carriage return. -/
def isSpaceChar (c : Char) : Bool :=
  c = ' ' || c = '\t' || c = '\n' || c = '\x0b' || c = '\x0c' || c = '\r'

/-- `strings.TrimSpace`: drop leading and trailing white space. -/
def trimSpace (s : String) : String :=
  String.mk (((s.data.dropWhile isSpaceChar).reverse.dropWhile isSpaceChar).reverse)

/-- The query parameters of one `/callback` request: `q.Get("state")`,
    `q.Get("error")` and `q.Get("code")`. -/
structure CallbackQuery where
  state : String
  errParam : String
  code : String
deriving Repr, DecidableEq

/-- The four disjoint outcomes of the `/callback` handler, one per
    branch of loopback.go:66-87. -/
inductive CallbackClass where
  /-- `q.Get("state") != state`: sends `"oauth state mismatch"` on `errCh`. -/
  | stateMismatch
  /-- a non-empty `error` parameter: sends `"oauth error: <e>"` on `errCh`. -/
  | oauthErr (e : String)
  /-- state matches, no error, blank code: sends `"missing code"` on `errCh`. -/
  | missingCode
  /-- state matches, no error, non-blank code: sends the code on `codeCh`. -/
  | valid (code : String)
deriving Repr, DecidableEq

/-- The `/callback` handler's classification of a request, given the
    session's generated `state`. Branches in source order. -/
def handleCallback (sessionState : String) (q : CallbackQuery) : CallbackClass :=
  if q.state ≠ sessionState then CallbackClass.stateMismatch
  else if q.errParam ≠ "" then CallbackClass.oauthErr q.errParam
  else if trimSpace q.code = "" then CallbackClass.missingCode
  else CallbackClass.valid q.code

/-- The two single-slot result channels of loopback.go:60-61. -/
inductive ChanId where
  | codeCh
  | errCh
deriving Repr, DecidableEq

/-- Which channel the handler sends on for a given classification:
    a valid callback goes to `codeCh`, every error branch to `errCh`. -/
def sendChannel : CallbackClass → ChanId
  | CallbackClass.valid _ => ChanId.codeCh
  | _ => ChanId.errCh

/-- Channel sends by the callback handlers after `LoopbackLogin`'s
    `select` has already completed by the 2-minute timeout
    (loopback.go:110-111): from that point the function performs no
    further receives on `codeCh` or `errCh`, so a handler's send
    completes iff the targeted capacity-1 buffer is still empty, and
    blocks forever otherwise. The two boolean arguments say whether the
    `codeCh` / `errCh` buffer slot is still free. Returns `true` iff some
    handler's send blocks indefinitely. -/
def anySendBlocks (sessionState : String) :
    List CallbackQuery → Bool → Bool → Bool
  | [], _, _ => false
  | q :: rest, codeFree, errFree =>
    match sendChannel (handleCallback sessionState q) with
    | ChanId.codeCh =>
        if codeFree then anySendBlocks sessionState rest false errFree else true
    | ChanId.errCh =>
        if errFree then anySendBlocks sessionState rest codeFree false else true

/-- Whether, after the consumer has moved on (timeout fired, both
    buffers initially empty), processing the given callback requests in
    arrival order makes some handler's channel send block indefinitely. -/
def handlerBlocksAfterTimeout (sessionState : String) (reqs : List CallbackQuery) : Bool :=
  anySendBlocks sessionState reqs true true

/-- The results of `LoopbackLogin`, one constructor per `return` path. -/
inductive LoginResult where
  /-- success: the exchanged token (loopback.go:118). -/
  | token (t : OToken)
  /-- `randState()` failed (crypto/rand unavailable, line 44-46). -/
  | randFailure
  /-- `net.Listen("tcp", "127.0.0.1:0")` failed (line 48-51). -/
  | bindFailure
  /-- `openBrowser(authURL)` returned an error (line 98-100). -/
  | browserFailure (msg : String)
  /-- the `select` received from `errCh`: the handler's error for the
      first callback (line 108-109). -/
  | callbackErr (c : CallbackClass)
  /-- the 2-minute context fired first: `"login timed out"` (line 110-111). -/
  | timedOut
  /-- `cfgCopy.Exchange` failed (line 114-117). -/
  | exchangeErr (msg : String)
deriving Repr, DecidableEq

/-- The environment a `LoopbackLogin` run interacts with: the outcome of
    each external effect, in the order the source performs them. -/
structure LoopbackEnv where
  /-- result of `randState()`: the generated state, or `none` on a
      randomness-source failure. -/
  randState : Option String
  /-- whether `net.Listen` succeeded. -/
  listenOk : Bool
  /-- the error returned by `openBrowser(authURL)`, or `none`. -/
  browserErr : Option String
  /-- the first event `select` observes: `some q` = a callback request
      delivered before the 2-minute context fires, `none` = timeout. -/
  firstCallback : Option CallbackQuery
  /-- `cfgCopy.Exchange(ctx, code)`: token or error, per code. -/
  exchange : String → Except String OToken

/-- `LoopbackLogin` (loopback.go:42-119), with each external effect read
    from the environment. Mirrors the source's early returns: state
    generation, listener bind, browser launch, then the `select` over
    `codeCh`/`errCh`/timeout, and finally the code exchange.
    The browser-open error return at line 98-100 happens before the
    `select`, so when `browserErr` is set the first callback is never
    received. -/
def loopbackLogin (env : LoopbackEnv) : LoginResult :=
  match env.randState with
  | none => LoginResult.randFailure
  | some st =>
    if ¬ env.listenOk then LoginResult.bindFailure
    else
      match env.browserErr with
      | some m => LoginResult.browserFailure m
      | none =>
        match env.firstCallback with
        | none => LoginResult.timedOut
        | some q =>
          match handleCallback st q with
          | CallbackClass.valid c =>
              match env.exchange c with
              | Except.ok t => LoginResult.token t
              | Except.error m => LoginResult.exchangeErr m
          | other => LoginResult.callbackErr other

/-! ## Device-flow TUI update loop (unnamed part_003)

The part of `model.Update` that drives a device-flow login attempt: the
`"l"` key handler (part_003:454-465) and the `authInfoMsg` handler
(part_003:420-439). The only producer of an `authInfoMsg` is the `"l"`
key handler's command, which returns the empty `authInfoMsg{}`
(`beginDeviceFlowCmd`, part_003:317-328, is defined but never invoked).
The `authInfoMsg` handler reads the credentials, performs one
`startDeviceFlow` request and hands the resulting `DeviceSession` to
`waitForDeviceTokenCmd`. -/

/-- The `deviceCodeResp` struct (part_003:104-110). -/
structure DeviceCodeResp where
  deviceCode : String
  userCode : String
  verificationURI : String
  expiresIn : Nat
  interval : Nat
deriving Repr, DecidableEq

/-- `startDeviceFlow` (part_003:112-138) as a function of the HTTP/JSON
    outcome of its single POST: on success it applies the interval
    default of lines 134-136 (`if out.Interval == 0 { out.Interval = 5 }`). -/
def startDeviceFlow (resp : Except String DeviceCodeResp) : Except String DeviceCodeResp :=
  match resp with
  | Except.error e => Except.error e
  | Except.ok dc =>
      Except.ok (if dc.interval = 0 then { dc with interval := 5 } else dc)

/-- The fields of `installedCreds.Installed` the device flow uses. -/
structure Creds where
  clientID : String
  clientSecret : String
  tokenURI : String
deriving Repr, DecidableEq

/-- The `authStep` enum (part_003:226-233). -/
inductive AuthStep where
  | authIdle
  | authNeedLogin
  | authWaiting
  | authDone
deriving Repr, DecidableEq

/-- The fields of the TUI `model` (part_003:245-256) that the login-key
    and `authInfoMsg` handlers read or write. -/
structure TuiModel where
  step : AuthStep
  errSet : Bool
  verificationURL : String
  userCode : String
  cfgPresent : Bool
deriving Repr, DecidableEq

/-- The commands those two handlers can return. `emitAuthInfo` is the
    `"l"` handler's closure returning `authInfoMsg{}`; `pollToken` is
    `waitForDeviceTokenCmd(tokenURI, clientID, clientSecret,
    dc.DeviceCode, dc.Interval, dc.ExpiresIn)`. -/
inductive TuiCmd where
  | noCmd
  | emitAuthInfo (url : String) (userCode : String)
  | pollToken (tokenURI : String) (clientID : String) (clientSecret : String)
      (deviceCode : String) (intervalSec : Nat) (expiresSec : Nat)
deriving Repr, DecidableEq

/-- The `case "l"` branch of `model.Update` (part_003:454-465): clear the
    error, fail if credentials were not loaded, otherwise enter
    `authWaiting` and emit the empty `authInfoMsg{}`. -/
def updateKeyL (m : TuiModel) : TuiModel × TuiCmd :=
  let m1 := { m with errSet := false }
  if ¬ m1.cfgPresent then ({ m1 with errSet := true }, TuiCmd.noCmd)
  else ({ m1 with step := AuthStep.authWaiting },
        TuiCmd.emitAuthInfo "" "")

/-- The external effects the `authInfoMsg` handler performs:
    `readCredentials()` and the HTTP outcome of the `startDeviceFlow`
    request it then issues. -/
structure AuthInfoEnv where
  creds : Except String Creds
  deviceFlowResp : Except String DeviceCodeResp

/-- The `case authInfoMsg` branch of `model.Update` (part_003:420-439).
    Returns the updated model, the emitted command and the number of
    POSTs made to the device-authorization endpoint while handling the
    message (0 when `readCredentials` fails, else exactly 1). -/
def updateAuthInfo (m : TuiModel) (env : AuthInfoEnv) : TuiModel × TuiCmd × Nat :=
  match env.creds with
  | Except.error _ => ({ m with errSet := true }, TuiCmd.noCmd, 0)
  | Except.ok creds =>
    match startDeviceFlow env.deviceFlowResp with
    | Except.error _ => ({ m with errSet := true }, TuiCmd.noCmd, 1)
    | Except.ok dc =>
        ({ m with verificationURL := dc.verificationURI,
                  userCode := dc.userCode,
                  step := AuthStep.authWaiting },
         TuiCmd.pollToken creds.tokenURI creds.clientID creds.clientSecret
           dc.deviceCode dc.interval dc.expiresIn,
         1)

/-- One device-flow login attempt: press `"l"`, then deliver the message
    the returned command produces. The `"l"` handler's command performs
    no network request (it just returns `authInfoMsg{}`); every
    device-authorization request of the attempt happens inside the
    `authInfoMsg` handler. Result: final model, final command, and the
    total number of device-authorization endpoint requests. -/
def loginAttempt (m : TuiModel) (env : AuthInfoEnv) : TuiModel × TuiCmd × Nat :=
  let (m1, c1) := updateKeyL m
  match c1 with
  | TuiCmd.emitAuthInfo _ _ => updateAuthInfo m1 env
  | c => (m1, c, 0)

/-! ## Token store (`internal/store/token_store.go`)

`Save` marshals the token with `encoding/json` and writes the file;
`Load` reads the file and unmarshals. `encoding/json` is modelled at the
JSON-object level: the serialized form of an `oauth2.Token` is a record
of its exported fields, where a field tagged `omitempty` whose Go value
is the empty string is omitted (`none`). `AccessToken` (tag
`json:"access_token"`, no omitempty) and `Expiry` (a `time.Time` struct,
which `omitempty` never omits) are always present. -/

/-- The JSON object `json.Marshal` produces for an `oauth2.Token`. -/
structure TokenJSON where
  access_token : String
  token_type : Option String
  refresh_token : Option String
  expiry : Nat
deriving Repr, DecidableEq

/-- `json.MarshalIndent(t, "", "  ")` restricted to the object structure:
    `omitempty` drops an empty `token_type` / `refresh_token`. -/
def marshalToken (t : OToken) : TokenJSON :=
  { access_token := t.accessToken
    token_type := if t.tokenType = "" then none else some t.tokenType
    refresh_token := if t.refreshToken = "" then none else some t.refreshToken
    expiry := t.expiry }

/-- `json.Unmarshal` into a zero `oauth2.Token`: an absent field leaves
    the zero value (the empty string). -/
def unmarshalToken (j : TokenJSON) : OToken :=
  { accessToken := j.access_token
    tokenType := (j.token_type).getD ""
    refreshToken := (j.refresh_token).getD ""
    expiry := j.expiry }

/-- The token file at `~/.gmail-tui/token.json`: `none` when absent. -/
def TokenFile := Option TokenJSON

/-- `TokenStore.Save` (token_store.go:51-57): marshal and write the file. -/
def tokenStoreSave (t : OToken) (_file : TokenFile) : TokenFile :=
  some (marshalToken t)

/-- `TokenStore.Load` (token_store.go:36-46): read the file (an absent
    file is an error) and unmarshal. -/
def tokenStoreLoad (file : TokenFile) : Except String OToken :=
  match file with
  | none => Except.error "open token.json: no such file or directory"
  | some j => Except.ok (unmarshalToken j)

/-! ## Base64url decoding (`decodeB64URL`, gmail client lines 412-426)

`decodeB64URL` rewrites the URL-safe alphabet back to the standard one
(`-`→`+`, `_`→`/`), re-adds padding from the length mod 4, and calls
`base64.StdEncoding.DecodeString`. The encoded text is a byte string;
it is modelled as `List Char` (every character involved is ASCII), and
the decoded raw bytes as `List Nat` with values `< 256`.

The encoder `base64.RawURLEncoding.EncodeToString` (what the Gmail API
applies to message bodies) is embedded as `rawURLEncodeBytes` so the
left-inverse property can be stated. -/

/-- The standard base64 alphabet: the character for a 6-bit value. -/
def b64Char (n : Nat) : Char :=
  if n < 26 then Char.ofNat (65 + n)
  else if n < 52 then Char.ofNat (97 + (n - 26))
  else if n < 62 then Char.ofNat (48 + (n - 52))
  else if n = 62 then '+'
  else '/'

/-- The substitution that turns the standard alphabet into the URL-safe
    one (`base64.RawURLEncoding`): `+`→`-`, `/`→`_`. -/
def urlSafeChar (c : Char) : Char :=
  if c = '+' then '-' else if c = '/' then '_' else c

/-- `base64.RawURLEncoding.EncodeToString`: groups of 3 bytes become 4
    characters; a trailing byte becomes 2 characters and two trailing
    bytes become 3, with no padding. -/
def rawURLEncodeBytes : List Nat → List Char
  | [] => []
  | [b1] =>
      [urlSafeChar (b64Char (b1 / 4)),
       urlSafeChar (b64Char (b1 % 4 * 16))]
  | [b1, b2] =>
      [urlSafeChar (b64Char (b1 / 4)),
       urlSafeChar (b64Char (b1 % 4 * 16 + b2 / 16)),
       urlSafeChar (b64Char (b2 % 16 * 4))]
  | b1 :: b2 :: b3 :: rest =>
      urlSafeChar (b64Char (b1 / 4)) ::
      urlSafeChar (b64Char (b1 % 4 * 16 + b2 / 16)) ::
      urlSafeChar (b64Char (b2 % 16 * 4 + b3 / 64)) ::
      urlSafeChar (b64Char (b3 % 64)) ::
      rawURLEncodeBytes rest

/-- The two `strings.ReplaceAll` calls of `decodeB64URL` (lines 413-414),
    per character: `-`→`+`, `_`→`/`. -/
def fromURLSafe (c : Char) : Char :=
  if c = '-' then '+' else if c = '_' then '/' else c

/-- The padding switch of `decodeB64URL` (lines 415-420): append `==`
    when the length is 2 mod 4 and `=` when it is 3 mod 4. -/
def padB64 (s : List Char) : List Char :=
  s ++ (match s.length % 4 with
        | 2 => ['=', '=']
        | 3 => ['=']
        | _ => [])

/-- The value of a standard-alphabet character, `none` for any other
    character (which makes `StdEncoding.DecodeString` fail). -/
def b64Val (c : Char) : Option Nat :=
  if 'A' ≤ c ∧ c ≤ 'Z' then some (c.toNat - 65)
  else if 'a' ≤ c ∧ c ≤ 'z' then some (c.toNat - 97 + 26)
  else if '0' ≤ c ∧ c ≤ '9' then some (c.toNat - 48 + 52)
  else if c = '+' then some 62
  else if c = '/' then some 63
  else none

/-- `base64.StdEncoding.DecodeString`: consume 4 characters at a time;
    the final quadruple may end in `=` (3 bytes → 2) or `==` (→ 1).
    A length not divisible by 4, a character outside the alphabet, or
    padding anywhere but the end is a `CorruptInputError` (`none`).
    Like Go's non-strict `StdEncoding`, unused trailing bits of the last
    character before padding are discarded, not checked. -/
def stdDecodeGroups : List Char → Option (List Nat)
  | [] => some []
  | c1 :: c2 :: c3 :: c4 :: rest =>
    match b64Val c1, b64Val c2 with
    | some v1, some v2 =>
      if c3 = '=' ∧ c4 = '=' ∧ rest = [] then
        some [v1 * 4 + v2 / 16]
      else
        match b64Val c3 with
        | some v3 =>
          if c4 = '=' ∧ rest = [] then
            some [v1 * 4 + v2 / 16, v2 % 16 * 16 + v3 / 4]
          else
            match b64Val c4 with
            | some v4 =>
                (stdDecodeGroups rest).map
                  (fun tl => (v1 * 4 + v2 / 16) ::
                             (v2 % 16 * 16 + v3 / 4) ::
                             (v3 % 4 * 64 + v4) :: tl)
            | none => none
        | none => none
    | _, _ => none
  | _ => none

/-- `decodeB64URL(s)` (lines 412-426): substitute the alphabet, pad,
    and decode with the standard decoder. `none` models the error
    return. -/
def decodeB64URL (s : List Char) : Option (List Nat) :=
  stdDecodeGroups (padB64 (s.map fromURLSafe))

/-! ## Subject placeholder (`ListInbox` / `GetDetail`, gmail client)

Both fetch paths read the `Subject` header with `headerVal` and replace
a missing or whitespace-only value by `"(no subject)"` (client lines
390-393 and 465-468). Headers are name/value pairs; `strings.ToLower`
is modelled by `Char.toLower` on each character (header names are
ASCII). -/

/-- One `gmail.MessagePartHeader`: a name and a value. -/
structure MessageHeader where
  name : String
  value : String
deriving Repr, DecidableEq

/-- `strings.ToLower` on an ASCII string. -/
def toLowerStr (s : String) : String :=
  String.map Char.toLower s

/-- `headerVal(headers, name)` (client lines 348-356): the value of the
    first header whose lowercased name matches, else `""`. -/
def headerVal (headers : List MessageHeader) (name : String) : String :=
  match headers.find? (fun h => toLowerStr h.name = toLowerStr name) with
  | some h => h.value
  | none => ""

/-- The subject both `ListInbox` and `GetDetail` compute from a
    message's headers: `headerVal(..., "Subject")` with the blank case
    replaced by the placeholder. -/
def subjectOf (headers : List MessageHeader) : String :=
  if trimSpace (headerVal headers "Subject") = "" then "(no subject)"
  else headerVal headers "Subject"

/-- The fields of one fetched message that `ListInbox` reads: the
    metadata headers and the snippet; `none` stands for a message whose
    `Messages.Get` failed (skipped by the loop, client line 386-388). -/
structure FetchedMsg where
  id : String
  headers : List MessageHeader
  snippet : String
deriving Repr, DecidableEq

/-- An `EmailRow` (client lines 327-333). -/
structure EmailRow where
  id : String
  subject : String
  fromAddr : String
  date : String
  snippet : String
deriving Repr, DecidableEq

/-- The row-construction loop of `ListInbox` (client lines 380-404):
    failed fetches are skipped, and each row's subject goes through the
    placeholder substitution. -/
def listInboxRows (msgs : List (Option FetchedMsg)) : List EmailRow :=
  msgs.foldr
    (fun m acc =>
      match m with
      | none => acc
      | some msg =>
          { id := msg.id
            subject := subjectOf msg.headers
            fromAddr := headerVal msg.headers "From"
            date := headerVal msg.headers "Date"
            snippet := msg.snippet } :: acc)
    []

/-- An `EmailDetail` (client lines 335-343). -/
structure EmailDetail where
  id : String
  subject : String
  fromAddr : String
  toAddr : String
  date : String
  snippet : String
  body : String
deriving Repr, DecidableEq

/-- The detail construction of `GetDetail` (client lines 465-484), given
    the fetched message and the already-extracted body text. -/
def getDetailOf (msg : FetchedMsg) (extractedBody : String) : EmailDetail :=
  { id := msg.id
    subject := subjectOf msg.headers
    fromAddr := headerVal msg.headers "From"
    toAddr := headerVal msg.headers "To"
    date := headerVal msg.headers "Date"
    snippet := msg.snippet
    body := if trimSpace extractedBody = "" then "(no plain-text body found)"
            else extractedBody }

/-! ## Theorems -/

/-- C7: for every callback request whose `state` query parameter differs
from the session's generated state, the loopback flow's result is the
state-mismatch error, regardless of whether a `code` parameter is
present; the code is never consumed and no exchange is attempted for
that callback (the result is the same whatever the exchange function
would return). -/
theorem loopback_state_mismatch (env : LoopbackEnv) (st : String) (q : CallbackQuery)
    (h1 : env.randState = some st) (h2 : env.listenOk = true)
    (h3 : env.browserErr = none) (h4 : env.firstCallback = some q)
    (h5 : q.state ≠ st) :
    loopbackLogin env = LoginResult.callbackErr CallbackClass.stateMismatch ∧
    ∀ ex : String → Except String OToken,
      loopbackLogin { env with exchange := ex } =
        LoginResult.callbackErr CallbackClass.stateMismatch := by
  constructor
  · simp [loopbackLogin, h1, h2, h3, h4, handleCallback, h5]
  · intro ex
    simp [loopbackLogin, h1, h2, h3, h4, handleCallback, h5]

/-- Witness for C7: a concrete callback carrying a mismatched state and
a present `code` parameter yields the state-mismatch error. -/
theorem loopback_state_mismatch_witness :
    loopbackLogin
      { randState := some "st0"
        listenOk := true
        browserErr := none
        firstCallback := some ⟨"other", "", "4/stolen-code"⟩
        exchange := fun _ => Except.ok ⟨"ya29", "Bearer", "", 0⟩ } =
      LoginResult.callbackErr CallbackClass.stateMismatch :=
  (loopback_state_mismatch
    { randState := some "st0"
      listenOk := true
      browserErr := none
      firstCallback := some ⟨"other", "", "4/stolen-code"⟩
      exchange := fun _ => Except.ok ⟨"ya29", "Bearer", "", 0⟩ }
    "st0" ⟨"other", "", "4/stolen-code"⟩ rfl rfl rfl rfl (by decide)).1

/-- C1 (counterexample): with a failing browser open, `LoopbackLogin`
returns the browser error immediately even though the pending callback
would have produced a token — it does not await the callback, so the
claim that the flow continues after an `openBrowser` failure is false. -/
theorem loopback_browser_error_cex :
    loopbackLogin
      { randState := some "st1"
        listenOk := true
        browserErr := some "exec: xdg-open: executable file not found"
        firstCallback := some ⟨"st1", "", "4/auth-code"⟩
        exchange := fun _ => Except.ok ⟨"ya29.tok", "Bearer", "1//refresh", 0⟩ } =
      LoginResult.browserFailure "exec: xdg-open: executable file not found" ∧
    loopbackLogin
      { randState := some "st1"
        listenOk := true
        browserErr := none
        firstCallback := some ⟨"st1", "", "4/auth-code"⟩
        exchange := fun _ => Except.ok ⟨"ya29.tok", "Bearer", "1//refresh", 0⟩ } =
      LoginResult.token ⟨"ya29.tok", "Bearer", "1//refresh", 0⟩ ∧
    LoginResult.browserFailure "exec: xdg-open: executable file not found" ≠
      LoginResult.token ⟨"ya29.tok", "Bearer", "1//refresh", 0⟩ :=
  ⟨by simp [loopbackLogin], by decide, by simp⟩

/-- C1 (amended): whenever `openBrowser` returns an error, `LoopbackLogin`
surfaces that error to its caller immediately (loopback.go:98-100) and
aborts the attempt without awaiting the callback. -/
theorem loopback_browser_error_aborts (env : LoopbackEnv) (st m : String)
    (h1 : env.randState = some st) (h2 : env.listenOk = true)
    (h3 : env.browserErr = some m) :
    loopbackLogin env = LoginResult.browserFailure m := by
  simp [loopbackLogin, h1, h2, h3]

/-- Witness for the amended C1. -/
theorem loopback_browser_error_aborts_witness :
    loopbackLogin
      { randState := some "st2"
        listenOk := true
        browserErr := some "fork/exec /usr/bin/open: permission denied"
        firstCallback := none
        exchange := fun _ => Except.error "unused" } =
      LoginResult.browserFailure "fork/exec /usr/bin/open: permission denied" :=
  loopback_browser_error_aborts _ "st2" "fork/exec /usr/bin/open: permission denied"
    rfl rfl rfl

/-- C2 (counterexample): after the consumer timed out and moved on, two
duplicate valid callbacks make the second handler's send on the one-slot
`codeCh` buffer block indefinitely — refuting the claim that the send
never blocks for every sequence of callback requests. -/
theorem loopback_duplicate_send_blocks_cex :
    handlerBlocksAfterTimeout "s" [⟨"s", "", "abc"⟩, ⟨"s", "", "abc"⟩] = true := by
  decide

/-- C2 (amended): each result channel is buffered with capacity one, so
for any single callback request the handler's send never blocks even
when the consumer has already moved on after a timeout; only a further
callback targeting an already-full channel can block its handler
goroutine. -/
theorem loopback_single_send_never_blocks (sessionState : String) (q : CallbackQuery) :
    handlerBlocksAfterTimeout sessionState [q] = false := by
  cases hc : sendChannel (handleCallback sessionState q) <;>
    simp [handlerBlocksAfterTimeout, anySendBlocks, hc]

/-- C3: one press of the login key drives exactly one request to the
device-authorization endpoint, and the `DeviceSession` that single
request returns — its device code, interval and expiry — is the one
handed to `waitForDeviceTokenCmd` for all subsequent polling. -/
theorem deviceFlow_single_request (m : TuiModel) (env : AuthInfoEnv)
    (creds : Creds) (dc : DeviceCodeResp)
    (hcfg : m.cfgPresent = true)
    (hcreds : env.creds = Except.ok creds)
    (hflow : startDeviceFlow env.deviceFlowResp = Except.ok dc) :
    (loginAttempt m env).2.2 = 1 ∧
    (loginAttempt m env).2.1 =
      TuiCmd.pollToken creds.tokenURI creds.clientID creds.clientSecret
        dc.deviceCode dc.interval dc.expiresIn := by
  simp [loginAttempt, updateKeyL, hcfg, updateAuthInfo, hcreds, hflow]

/-- Witness for C3: a concrete login attempt performs one
device-authorization request and polls with that session's device code,
interval and expiry. -/
theorem deviceFlow_single_request_witness :
    (loginAttempt ⟨AuthStep.authIdle, false, "", "", true⟩
        ⟨Except.ok ⟨"cid", "sec", "https://oauth2.googleapis.com/token"⟩,
         Except.ok ⟨"dev-123", "ABCD-EFGH", "https://google.com/device", 1800, 5⟩⟩).2.2 = 1 ∧
    (loginAttempt ⟨AuthStep.authIdle, false, "", "", true⟩
        ⟨Except.ok ⟨"cid", "sec", "https://oauth2.googleapis.com/token"⟩,
         Except.ok ⟨"dev-123", "ABCD-EFGH", "https://google.com/device", 1800, 5⟩⟩).2.1 =
      TuiCmd.pollToken "https://oauth2.googleapis.com/token" "cid" "sec" "dev-123" 5 1800 :=
  deviceFlow_single_request
    ⟨AuthStep.authIdle, false, "", "", true⟩
    ⟨Except.ok ⟨"cid", "sec", "https://oauth2.googleapis.com/token"⟩,
     Except.ok ⟨"dev-123", "ABCD-EFGH", "https://google.com/device", 1800, 5⟩⟩
    ⟨"cid", "sec", "https://oauth2.googleapis.com/token"⟩
    ⟨"dev-123", "ABCD-EFGH", "https://google.com/device", 1800, 5⟩
    rfl rfl rfl

/-- C8: saving any token and loading it back yields a field-for-field
equal token, and an absent refresh token (the Go zero value `""`) is
omitted from the serialized object — it stays absent rather than
becoming an empty-string JSON field. -/
theorem tokenStore_roundTrip (t : OToken) (file : TokenFile) :
    tokenStoreLoad (tokenStoreSave t file) = Except.ok t ∧
    (t.refreshToken = "" → (marshalToken t).refresh_token = none) := by
  constructor
  · simp only [tokenStoreSave, tokenStoreLoad, marshalToken, unmarshalToken]
    congr 1
    cases t with
    | mk a ty r e =>
      by_cases hty : ty = "" <;> by_cases hr : r = "" <;>
        simp [hty, hr]
  · intro h
    simp [marshalToken, h]

/-- Witness for C8: a token without refresh token round-trips exactly
and its serialized object carries no `refresh_token` field. -/
theorem tokenStore_roundTrip_witness :
    tokenStoreLoad (tokenStoreSave ⟨"ya29.access", "Bearer", "", 1700000000⟩ none) =
      Except.ok ⟨"ya29.access", "Bearer", "", 1700000000⟩ ∧
    ((⟨"ya29.access", "Bearer", "", 1700000000⟩ : OToken).refreshToken = "" →
      (marshalToken ⟨"ya29.access", "Bearer", "", 1700000000⟩).refresh_token = none) :=
  tokenStore_roundTrip ⟨"ya29.access", "Bearer", "", 1700000000⟩ none

/-- Helper: the subject computed by both fetch paths is never empty:
either it is the placeholder, or its trim is non-blank and hence the
string itself is non-empty. -/
theorem subjectOf_ne_empty (headers : List MessageHeader) :
    subjectOf headers ≠ "" := by
  by_cases h : trimSpace (headerVal headers "Subject") = ""
  · simp [subjectOf, h]
  · simp only [subjectOf, if_neg h]
    intro heq
    apply h
    rw [heq]
    rfl

/-- C10: every `EmailRow` produced by the `ListInbox` loop and every
`EmailDetail` produced by `GetDetail` has a non-empty subject: a missing
or whitespace-only `Subject` header is replaced by `"(no subject)"`. -/
theorem subject_never_empty :
    (∀ (msgs : List (Option FetchedMsg)) (r : EmailRow),
        r ∈ listInboxRows msgs → r.subject ≠ "") ∧
    (∀ (msg : FetchedMsg) (extractedBody : String),
        (getDetailOf msg extractedBody).subject ≠ "") := by
  constructor
  · intro msgs
    induction msgs with
    | nil => intro r hr; simp [listInboxRows] at hr
    | cons m rest ih =>
      intro r hr
      cases m with
      | none =>
        apply ih
        simpa [listInboxRows] using hr
      | some msg =>
        simp only [listInboxRows, List.foldr_cons] at hr
        rcases List.mem_cons.mp hr with h | h
        · rw [h]
          exact subjectOf_ne_empty msg.headers
        · exact ih r (by simpa [listInboxRows] using h)
  · intro msg extractedBody
    exact subjectOf_ne_empty msg.headers

/-- Witness for C10: a message with no headers gets the placeholder
subject in both paths. -/
theorem subject_never_empty_witness :
    ((⟨"id1", [], "snippet"⟩ : FetchedMsg).id = "id1" →
      (∀ r ∈ listInboxRows [some ⟨"id1", [], "snippet"⟩], r.subject ≠ "")) ∧
    (getDetailOf ⟨"id1", [], "snippet"⟩ "").subject ≠ "" :=
  ⟨fun _ r hr => subject_never_empty.1 [some ⟨"id1", [], "snippet"⟩] r hr,
   subject_never_empty.2 ⟨"id1", [], "snippet"⟩ ""⟩

/-- Helper: an `authorization_pending` response advances one loop
iteration — one more request, a sleep of the current interval, interval
and bump count unchanged. -/
theorem pollLoop_step_pending (responses : Nat → DevResp)
    (fuel reqs now interval deadline bumps : Nat) (s b d : String)
    (hr : responses reqs = DevResp.httpErr s b (some ⟨"authorization_pending", d⟩))
    (hd : now ≤ deadline) :
    pollLoop responses (fuel + 1) reqs now interval deadline bumps =
      pollLoop responses fuel (reqs + 1) (now + interval) interval deadline bumps := by
  rw [pollLoop, if_neg (by omega), hr]
  simp

/-- Helper: a `slow_down` response advances one loop iteration after
bumping the interval by 2 and sleeping the bumped interval. -/
theorem pollLoop_step_slowdown (responses : Nat → DevResp)
    (fuel reqs now interval deadline bumps : Nat) (s b d : String)
    (hr : responses reqs = DevResp.httpErr s b (some ⟨"slow_down", d⟩))
    (hd : now ≤ deadline) :
    pollLoop responses (fuel + 1) reqs now interval deadline bumps =
      pollLoop responses fuel (reqs + 1) (now + (interval + 2)) (interval + 2)
        deadline (bumps + 1) := by
  rw [pollLoop, if_neg (by omega), hr]
  simp

/-- Helper: a 200 response with a non-empty access token returns the
token at once. -/
theorem pollLoop_step_success (responses : Nat → DevResp)
    (fuel reqs now interval deadline bumps : Nat) (tok : OToken)
    (hr : responses reqs = DevResp.http200 (some tok))
    (hne : tok.accessToken ≠ "")
    (hd : now ≤ deadline) :
    pollLoop responses (fuel + 1) reqs now interval deadline bumps =
      some ⟨PollResult.token tok, reqs + 1, interval, now, bumps⟩ := by
  rw [pollLoop, if_neg (by omega), hr]
  simp [hne]

/-- Helper invariant: whatever the response schedule, a `pollLoop` run
that returns a success token returns one with a non-empty access token
(the only success return is guarded by `tok.AccessToken == ""`). -/
theorem pollLoop_success_nonempty (responses : Nat → DevResp) :
    ∀ (fuel reqs now interval deadline bumps : Nat) (o : PollOutcome),
      pollLoop responses fuel reqs now interval deadline bumps = some o →
      ∀ t, o.result = PollResult.token t → t.accessToken ≠ "" := by
  intro fuel
  induction fuel with
  | zero =>
    intro reqs now interval deadline bumps o h
    simp [pollLoop] at h
  | succ n ih =>
    intro reqs now interval deadline bumps o h t hres
    rw [pollLoop] at h
    split at h
    · cases h
      simp at hres
    · split at h
      · cases h
        simp at hres
      · cases h
        simp at hres
      · split at h
        · cases h
          simp at hres
        · cases h
          rename_i hne
          simp only [PollResult.token.injEq] at hres
          subst hres
          exact hne
      · split at h
        · exact ih _ _ _ _ _ _ h t hres
        · split at h
          · exact ih _ _ _ _ _ _ h t hres
          · split at h
            · cases h
              simp at hres
            · split at h
              · cases h
                simp at hres
              · cases h
                simp at hres

/-- C6: when the token endpoint answers a device poll with HTTP 200 and
an empty `access_token`, the poller returns the malformed-token error
(`"token response missing access_token"`), not success; and no run of
the poller, whatever the response schedule, ever returns a success
token whose access token is empty. -/
theorem pollDeviceToken_empty_token_never_success
    (responses : Nat → DevResp) (interval expiresIn fuel : Nat) (o : PollOutcome)
    (h : pollDeviceToken responses interval expiresIn fuel = some o) :
    (∀ tok, responses 0 = DevResp.http200 (some tok) → tok.accessToken = "" →
        o.result = PollResult.missingAccessToken) ∧
    (∀ t, o.result = PollResult.token t → t.accessToken ≠ "") := by
  constructor
  · intro tok h0 hempty
    cases fuel with
    | zero => simp [pollDeviceToken, pollLoop] at h
    | succ n =>
      unfold pollDeviceToken at h
      rw [pollLoop, if_neg (by omega), h0] at h
      simp only [hempty, if_pos, if_true] at h
      simp at h
      rw [← h]
  · exact pollLoop_success_nonempty responses fuel 0 0 interval expiresIn 0 o h

/-- Witness for C6: a 200 response with body `{"access_token":""}` on
the first poll yields the malformed-token error. -/
theorem pollDeviceToken_empty_token_witness :
    ((⟨PollResult.missingAccessToken, 1, 5, 0, 0⟩ : PollOutcome).result =
        PollResult.missingAccessToken) ∧
    (∀ t, (⟨PollResult.missingAccessToken, 1, 5, 0, 0⟩ : PollOutcome).result =
        PollResult.token t → t.accessToken ≠ "") := by
  have h := pollDeviceToken_empty_token_never_success
    (fun _ => DevResp.http200 (some ⟨"", "", "", 0⟩)) 5 300 1
    ⟨PollResult.missingAccessToken, 1, 5, 0, 0⟩ (by decide)
  exact ⟨h.1 ⟨"", "", "", 0⟩ rfl rfl, h.2⟩

/-- C4: on the response schedule `[authorization_pending,
authorization_pending, slow_down, success]`, `pollDeviceToken` performs
exactly 4 token-endpoint requests, bumps its interval exactly once (by
the fixed increment 2), and returns the token parsed from the 4th
response; the run finishes `3·interval + 2` seconds in. -/
theorem pollDeviceToken_four_step (tok : OToken) (i expiresIn fuel : Nat)
    (hne : tok.accessToken ≠ "") (hdl : 3 * i + 2 ≤ expiresIn) (hfuel : 4 ≤ fuel) :
    pollDeviceToken (fourStepResponses tok) i expiresIn fuel =
      some ⟨PollResult.token tok, 4, i + 2, 3 * i + 2, 1⟩ := by
  obtain ⟨n, rfl⟩ : ∃ n, fuel = n + 4 := ⟨fuel - 4, by omega⟩
  unfold pollDeviceToken
  show pollLoop (fourStepResponses tok) ((n + 3) + 1) 0 0 i expiresIn 0 = _
  rw [pollLoop_step_pending _ _ _ _ _ _ _ _ _ _ rfl (by omega)]
  show pollLoop (fourStepResponses tok) ((n + 2) + 1) 1 (0 + i) i expiresIn 0 = _
  rw [pollLoop_step_pending _ _ _ _ _ _ _ _ _ _ rfl (by omega)]
  show pollLoop (fourStepResponses tok) ((n + 1) + 1) 2 (0 + i + i) i expiresIn 0 = _
  rw [pollLoop_step_slowdown _ _ _ _ _ _ _ _ _ _ rfl (by omega)]
  show pollLoop (fourStepResponses tok) (n + 1) 3 (0 + i + i + (i + 2)) (i + 2)
      expiresIn (0 + 1) = _
  rw [pollLoop_step_success _ _ _ _ _ _ _ _ rfl hne (by omega)]
  simp only [Option.some.injEq, PollOutcome.mk.injEq, eq_self_iff_true, true_and, and_true]
  omega

/-- Witness for C4: with an initial interval of 5 seconds and 600
seconds of lifetime, the four-step schedule finishes in 4 requests,
one interval bump to 7, at second 17. -/
theorem pollDeviceToken_four_step_witness :
    pollDeviceToken (fourStepResponses ⟨"ya29.access", "Bearer", "", 0⟩) 5 600 4 =
      some ⟨PollResult.token ⟨"ya29.access", "Bearer", "", 0⟩, 4, 7, 17, 1⟩ :=
  pollDeviceToken_four_step ⟨"ya29.access", "Bearer", "", 0⟩ 5 600 4
    (by decide) (by omega) (by omega)

/-- Helper: with every response `authorization_pending` and a positive
interval, the loop hits the deadline check and returns `expired`, at an
elapsed time at most one interval past the deadline, with the interval
and bump count unchanged. Fuel `n + 1` suffices when
`deadline + 1 ≤ now + n`. -/
theorem pollLoop_pending_expires (interval deadline : Nat) (hi : 1 ≤ interval) :
    ∀ (n reqs now bumps : Nat),
      now ≤ deadline + interval →
      deadline + 1 ≤ now + n →
      ∃ r t, pollLoop pendingResponses (n + 1) reqs now interval deadline bumps =
          some ⟨PollResult.expired, r, interval, t, bumps⟩ ∧
        t ≤ deadline + interval := by
  intro n
  induction n with
  | zero =>
    intro reqs now bumps hub hlb
    refine ⟨reqs, now, ?_, hub⟩
    rw [pollLoop, if_pos (by omega)]
  | succ k ih =>
    intro reqs now bumps hub hlb
    by_cases hnow : deadline < now
    · refine ⟨reqs, now, ?_, hub⟩
      rw [pollLoop, if_pos hnow]
    · rw [pollLoop_step_pending _ _ _ _ _ _ _ _ _ _ rfl (by omega)]
      exact ih (reqs + 1) (now + interval) bumps (by omega) (by omega)

/-- C5: if the token endpoint returns only `authorization_pending`,
`pollDeviceToken` with any positive interval terminates with the
`expired` error (fuel `expiresIn + 2` loop iterations suffice — it never
loops forever), and the elapsed time at the moment of returning is at
most the expiry lifetime plus one interval: the deadline is re-checked
at the top of each iteration, immediately before the network call, so
the overshoot is bounded by a single interval sleep. -/
theorem pollDeviceToken_only_pending_expires (interval expiresIn : Nat)
    (hi : 1 ≤ interval) :
    ∃ o, pollDeviceToken pendingResponses interval expiresIn (expiresIn + 2) = some o ∧
      o.result = PollResult.expired ∧ o.time ≤ expiresIn + interval := by
  obtain ⟨r, t, h, ht⟩ :=
    pollLoop_pending_expires interval expiresIn hi (expiresIn + 1) 0 0 0
      (by omega) (by omega)
  exact ⟨⟨PollResult.expired, r, interval, t, 0⟩, h, rfl, ht⟩

/-- Witness for C5: interval 5, lifetime 10 — the poller expires at
second 15 after 3 pending polls, within `10 + 5`. -/
theorem pollDeviceToken_only_pending_expires_witness :
    ∃ o, pollDeviceToken pendingResponses 5 10 12 = some o ∧
      o.result = PollResult.expired ∧ o.time ≤ 10 + 5 :=
  pollDeviceToken_only_pending_expires 5 10 (by omega)

/-- Helper: for every 6-bit value, the encoder's character survives the
URL-safe substitution and its reversal, decodes back to the same value,
and is never the padding character. Checked by enumeration of the 64
alphabet characters. -/
theorem b64Char_good : ∀ n : Nat, n < 64 →
    fromURLSafe (urlSafeChar (b64Char n)) = b64Char n ∧
    b64Val (b64Char n) = some n ∧ b64Char n ≠ '=' := by decide

/-- Helper: the padding computed for a string of length `4 + n` equals
the padding for length `n`, so `padB64` distributes over a leading
complete quadruple. -/
theorem padB64_cons4 (c1 c2 c3 c4 : Char) (t : List Char) :
    padB64 (c1 :: c2 :: c3 :: c4 :: t) = c1 :: c2 :: c3 :: c4 :: padB64 t := by
  unfold padB64
  have h : (c1 :: c2 :: c3 :: c4 :: t).length % 4 = t.length % 4 := by
    simp [List.length_cons]
    omega
  rw [h]
  simp

/-- C9: for every byte sequence, `decodeB64URL` applied to its unpadded
URL-safe base64 encoding (the encoding the Gmail API uses for message
bodies) succeeds and returns exactly those bytes — `decodeB64URL` is a
left inverse of `base64.RawURLEncoding.EncodeToString`. -/
theorem decodeB64URL_left_inverse (b : List Nat) (hb : ∀ x ∈ b, x < 256) :
    decodeB64URL (rawURLEncodeBytes b) = some b := by
  induction b using rawURLEncodeBytes.induct with
  | case1 => rfl
  | case2 b1 =>
    have h1 : b1 < 256 := hb b1 (by simp)
    have hv1 : b1 / 4 < 64 := by omega
    have hv2 : b1 % 4 * 16 < 64 := by omega
    have e1 := (b64Char_good _ hv1).1
    have e2 := (b64Char_good _ hv2).1
    have w1 := (b64Char_good _ hv1).2.1
    have w2 := (b64Char_good _ hv2).2.1
    unfold decodeB64URL
    rw [rawURLEncodeBytes, List.map_cons, List.map_cons, List.map_nil, e1, e2]
    simp only [padB64, List.length_cons, List.length_nil]
    norm_num
    simp only [stdDecodeGroups, w1, w2]
    rw [if_pos (by simp)]
    simp only [Option.some.injEq, List.cons.injEq, and_true]
    omega
  | case3 b1 b2 =>
    have h1 : b1 < 256 := hb b1 (by simp)
    have h2 : b2 < 256 := hb b2 (by simp)
    have hv1 : b1 / 4 < 64 := by omega
    have hv2 : b1 % 4 * 16 + b2 / 16 < 64 := by omega
    have hv3 : b2 % 16 * 4 < 64 := by omega
    have e1 := (b64Char_good _ hv1).1
    have e2 := (b64Char_good _ hv2).1
    have e3 := (b64Char_good _ hv3).1
    have w1 := (b64Char_good _ hv1).2.1
    have w2 := (b64Char_good _ hv2).2.1
    have w3 := (b64Char_good _ hv3).2.1
    have n3 := (b64Char_good _ hv3).2.2
    unfold decodeB64URL
    rw [rawURLEncodeBytes, List.map_cons, List.map_cons, List.map_cons, List.map_nil,
      e1, e2, e3]
    simp only [padB64, List.length_cons, List.length_nil]
    norm_num
    simp only [stdDecodeGroups, w1, w2]
    rw [if_neg (fun hh => n3 hh.1)]
    simp only [w3]
    rw [if_pos (by simp)]
    simp only [Option.some.injEq, List.cons.injEq, and_true]
    omega
  | case4 b1 b2 b3 rest ih =>
    have h1 : b1 < 256 := hb b1 (by simp)
    have h2 : b2 < 256 := hb b2 (by simp)
    have h3 : b3 < 256 := hb b3 (by simp)
    have hrest : ∀ x ∈ rest, x < 256 := fun x hx => hb x (by simp [hx])
    have hv1 : b1 / 4 < 64 := by omega
    have hv2 : b1 % 4 * 16 + b2 / 16 < 64 := by omega
    have hv3 : b2 % 16 * 4 + b3 / 64 < 64 := by omega
    have hv4 : b3 % 64 < 64 := by omega
    have e1 := (b64Char_good _ hv1).1
    have e2 := (b64Char_good _ hv2).1
    have e3 := (b64Char_good _ hv3).1
    have e4 := (b64Char_good _ hv4).1
    have w1 := (b64Char_good _ hv1).2.1
    have w2 := (b64Char_good _ hv2).2.1
    have w3 := (b64Char_good _ hv3).2.1
    have w4 := (b64Char_good _ hv4).2.1
    have n3 := (b64Char_good _ hv3).2.2
    have n4 := (b64Char_good _ hv4).2.2
    have hX := ih hrest
    unfold decodeB64URL at hX ⊢
    rw [rawURLEncodeBytes, List.map_cons, List.map_cons, List.map_cons, List.map_cons,
      e1, e2, e3, e4, padB64_cons4]
    simp only [stdDecodeGroups, w1, w2]
    rw [if_neg (fun hh => n3 hh.1)]
    simp only [w3]
    rw [if_neg (fun hh => n4 hh.1)]
    simp only [w4]
    rw [hX]
    simp only [Option.map_some', Option.some.injEq, List.cons.injEq]
    refine ⟨by omega, by omega, by omega, trivial⟩

/-- Witness for C9: the bytes of `"Hello"` survive the encode/decode
round trip. -/
theorem decodeB64URL_left_inverse_witness :
    decodeB64URL (rawURLEncodeBytes [72, 101, 108, 108, 111]) =
      some [72, 101, 108, 108, 111] :=
  decodeB64URL_left_inverse [72, 101, 108, 108, 111] (by decide)

end GmailTUI
